import Mathlib

/-!
Verification of `src/js/main.js` of the veloura e-commerce homepage.

The JavaScript module is a flat collection of UI initializers.  We embed the
storage-facing and state-facing logic shallowly:

* JavaScript values produced by `JSON.parse` (plus `undefined` and `NaN`,
  which arise from property access and arithmetic) become the inductive
  `JVal`; machine numbers are modelled as exact integers, which is faithful
  for the integral quantities the code manipulates.
* Fallible JavaScript evaluation (property access on `null`/`undefined`,
  calling `.reduce` on a non-array) becomes `Except String`.
* `localStorage` becomes a function `String → Option String`; the outcome of
  `JSON.parse` on a raw stored string is abstracted by `RawVal`.
* Timer callbacks become pure state-transition functions on integer
  timestamps (milliseconds) and integer indices.
-/

namespace Veloura

/-- JavaScript runtime values relevant to `main.js`: everything `JSON.parse`
can produce, plus `undefined` (absent properties) and `NaN`.  Numbers are
modelled as integers. -/
inductive JVal where
  | undefined
  | null
  | nan
  | num (i : Int)
  | str (s : String)
  | bool (b : Bool)
  | arr (xs : List JVal)
  | obj (fields : List (String × JVal))
  deriving Repr

/-- JavaScript truthiness: `false`, `0`, `NaN`, `""`, `null`, `undefined`
are falsy; every object, array, nonzero number and nonempty string is
truthy.  Used by `item.qty || 1` (line 39) and `stored || system`
(line 56). -/
def truthy : JVal → Bool
  | .undefined => false
  | .null => false
  | .nan => false
  | .num i => i != 0
  | .str s => s != ""
  | .bool b => b
  | .arr _ => true
  | .obj _ => true

/-- JavaScript `String(v)` / `ToString`: arrays join their elements with
commas (with `null`/`undefined` elements rendered empty), plain objects
render as `[object Object]`. -/
def jsToString : JVal → String
  | .undefined => "undefined"
  | .null => "null"
  | .nan => "NaN"
  | .num i => toString i
  | .str s => s
  | .bool b => if b then "true" else "false"
  | .arr xs => jsToStringList xs
  | .obj _ => "[object Object]"
where
  /-- Comma-join of array elements, as in `Array.prototype.toString`. -/
  jsToStringList : List JVal → String
  | [] => ""
  | [x] =>
    match x with
    | .null => ""
    | .undefined => ""
    | v => jsToString v
  | x :: xs =>
    (match x with
     | .null => ""
     | .undefined => ""
     | v => jsToString v) ++ "," ++ jsToStringList xs

/-- `ToNumber` on non-string primitives (`+` never applies `ToNumber` to a
string: a string operand triggers concatenation instead).  `none` encodes
`NaN`. -/
def jsToNumber : JVal → Option Int
  | .null => some 0
  | .bool b => some (if b then 1 else 0)
  | .num i => some i
  | _ => none

/-- Operands whose `ToPrimitive` result is a string, making `+` concatenate:
strings themselves, and arrays/objects (whose default primitive is their
string form). -/
def isStringy : JVal → Bool
  | .str _ => true
  | .arr _ => true
  | .obj _ => true
  | _ => false

/-- JavaScript binary `+`: string concatenation when either primitive
operand is a string, numeric addition otherwise (with `NaN` absorbing). -/
def jsAdd (a b : JVal) : JVal :=
  if isStringy a || isStringy b then
    .str (jsToString a ++ jsToString b)
  else
    match jsToNumber a, jsToNumber b with
    | some x, some y => .num (x + y)
    | _, _ => .nan

/-- JavaScript property read `v[key]`: throws a `TypeError` on `null` and
`undefined`; looks up own properties of objects; `length` of arrays and
strings; `undefined` for everything else. -/
def getField (v : JVal) (key : String) : Except String JVal :=
  match v with
  | .null => .error "TypeError: cannot read properties of null"
  | .undefined => .error "TypeError: cannot read properties of undefined"
  | .obj fields => .ok ((List.lookup key fields).getD .undefined)
  | .arr xs => .ok (if key = "length" then .num xs.length else .undefined)
  | .str s => .ok (if key = "length" then .num s.length else .undefined)
  | _ => .ok .undefined

/-- Outcome of reading one `localStorage` key and handing it to
`JSON.parse`: the key is absent (`getItem` returns `null`), holds the empty
string (falsy, so `value ? JSON.parse(value) : fallback` skips parsing),
holds a string `JSON.parse` rejects, or parses to a `JVal`. -/
inductive RawVal where
  | absent
  | emptyStr
  | unparsable
  | parsed (v : JVal)
  deriving Repr

/-- The stored value is absent or is not parseable JSON (malformed),
i.e. `JSON.parse` is skipped or throws. -/
def isParseFailure : RawVal → Bool
  | .absent => true
  | .emptyStr => true
  | .unparsable => true
  | .parsed _ => false

/-- `loadStorage` (main.js:17-24): `try { const value =
localStorage.getItem(key); return value ? JSON.parse(value) : fallback; }
catch { return fallback; }`.  `RawVal` abstracts the raw string's parse
outcome. -/
def loadStorage (raw : RawVal) (fallback : JVal) : JVal :=
  match raw with
  | .parsed v => v
  | _ => fallback

/-- The reducer of `syncBadges` (main.js:39):
`(sum, item) => sum + (item.qty || 1)`.  Property access on a `null` or
`undefined` item throws. -/
def cartStep (sum item : JVal) : Except String JVal := do
  let q ← getField item "qty"
  .ok (jsAdd sum (if truthy q then q else .num 1))

/-- `cart.reduce((sum, item) => sum + (item.qty || 1), 0)` (main.js:39):
`reduce` exists only on arrays; on any other receiver the call throws. -/
def cartReduce (cart : JVal) : Except String JVal :=
  match cart with
  | .arr xs => xs.foldlM cartStep (.num 0)
  | _ => .error "TypeError: cart.reduce is not a function"

/-- `wishlist.length` (main.js:40). -/
def wishlistLength (wishlist : JVal) : Except String JVal :=
  getField wishlist "length"

/-- `syncBadges` (main.js:36-45): loads both collections with `[]` as
fallback, computes the summed cart quantity and the wishlist length, and
returns the two strings assigned to the badges' `textContent` (assignment
stringifies the number).  An uncaught `TypeError` is an `error` result. -/
def syncBadges (cartRaw wishRaw : RawVal) : Except String (String × String) := do
  let cart := loadStorage cartRaw (.arr [])
  let wishlist := loadStorage wishRaw (.arr [])
  let cartCount ← cartReduce cart
  let wishlistCount ← wishlistLength wishlist
  .ok (jsToString cartCount, jsToString wishlistCount)

/-- C1: for every stored value under `veloura-cart` or `veloura-wishlist`
that is absent or malformed (not parseable as JSON, the failure
`loadStorage`'s `try`/`catch` swallows), `syncBadges` renders both badge
counts as `"0"` and throws no exception. -/
theorem syncBadges_malformed_renders_zero (c w : RawVal)
    (hc : isParseFailure c = true) (hw : isParseFailure w = true) :
    syncBadges c w = .ok ("0", "0") := by
  cases c <;> cases w <;> simp_all [isParseFailure] <;> rfl

/-- C1 witness: an absent cart key together with an unparsable wishlist
value renders `"0"`/`"0"` without an exception. -/
theorem syncBadges_malformed_renders_zero_witness :
    isParseFailure .absent = true ∧ isParseFailure .unparsable = true ∧
      syncBadges .absent .unparsable = .ok ("0", "0") :=
  ⟨rfl, rfl, syncBadges_malformed_renders_zero .absent .unparsable rfl rfl⟩

/-- `localStorage` contents: each key holds a string or is absent. -/
def Store : Type := String → Option String

/-- `localStorage.setItem(key, value)`. -/
def setItem (s : Store) (key value : String) : Store :=
  fun k => if k = key then some value else s k

/-- The page state the storage-facing handlers touch: the storage and the
document root's `data-theme` attribute (absent before `initTheme` runs). -/
structure PageState where
  store : Store
  themeAttr : Option String

/-- Truthiness of `localStorage.getItem`'s string-or-null result, as used
by `stored || system` (main.js:56). -/
def truthyStr : Option String → Bool
  | none => false
  | some s => s != ""

/-- Every event of `main.js` that can touch `localStorage` or the theme
attribute, one constructor per handler or timer callback in the source.
`pageLoad` is the `DOMContentLoaded` init sequence (main.js:237-248);
`themeToggleClick` is the `#theme-toggle` click handler (main.js:60-66).
The remaining handlers — tab clicks (131-139), the reveal observer
callback (111-117), countdown ticks (151-165), carousel dot/prev/next
clicks and autoplay ticks (185, 203-208), scroll handlers (98-101,
218-220), the back-to-top click (221-223) and the arrival skeleton timeout
(232-234) — perform no storage access and no theme-attribute write. -/
inductive PageEvent where
  | pageLoad (system : String)
  | themeToggleClick
  | tabClick
  | revealObserve
  | countdownTick
  | autoplayTick
  | dotClick
  | prevClick
  | nextClick
  | scroll
  | backToTopClick
  | arrivalTimeout
  deriving Repr

/-- State transition of one `PageEvent`.  `pageLoad` performs `initTheme`'s
attribute write (`theme = stored || system`, main.js:56-57); `syncBadges`
and the other initializers only read storage or leave it untouched.
`themeToggleClick` flips the attribute and persists it (main.js:61-64). -/
def step (st : PageState) : PageEvent → PageState
  | .pageLoad system =>
    let stored := st.store "veloura-theme"
    let theme := if truthyStr stored then stored.getD system else system
    { st with themeAttr := some theme }
  | .themeToggleClick =>
    let current := st.themeAttr
    let next := if current = some "dark" then "light" else "dark"
    { store := setItem st.store "veloura-theme" next, themeAttr := some next }
  | _ => st

/-- C2 counterexample: with no stored preference and the attribute at
`"light"` (the state `initTheme` produces on a light-scheme system with
empty storage), two toggle clicks restore the attribute but leave a stored
preference `"light"` where there was none: the stored preference does not
return to its original value. -/
theorem theme_toggle_twice_counterexample :
    (step (step { store := fun _ => none, themeAttr := some "light" }
        .themeToggleClick) .themeToggleClick).themeAttr = some "light" ∧
    (step (step { store := fun _ => none, themeAttr := some "light" }
        .themeToggleClick) .themeToggleClick).store "veloura-theme" = some "light" ∧
    ((fun _ => none : Store) "veloura-theme" = none) := by
  refine ⟨?_, ?_, rfl⟩ <;> simp [step, setItem]

/-- C2 amended: if the document root's theme attribute is `"dark"` or
`"light"` and the stored `veloura-theme` preference equals the attribute
value, then two theme-toggle clicks return both the attribute and the
stored preference to their original values. -/
theorem theme_toggle_twice_restores (st : PageState) (t : String)
    (hattr : st.themeAttr = some t) (ht : t = "dark" ∨ t = "light")
    (hstore : st.store "veloura-theme" = some t) :
    (step (step st .themeToggleClick) .themeToggleClick).themeAttr
        = st.themeAttr ∧
    (step (step st .themeToggleClick) .themeToggleClick).store "veloura-theme"
        = st.store "veloura-theme" := by
  rcases ht with h | h <;> subst h <;>
    simp [step, setItem, hattr, hstore]

/-- A page state whose stored preference and theme attribute both read
`"dark"`. -/
def darkState : PageState :=
  { store := fun k => if k = "veloura-theme" then some "dark" else none,
    themeAttr := some "dark" }

/-- C2 witness: a state whose attribute and stored preference both read
`"dark"` is restored by a double toggle. -/
theorem theme_toggle_twice_restores_witness :
    darkState.themeAttr = some "dark" ∧
    (step (step darkState .themeToggleClick) .themeToggleClick).themeAttr
      = darkState.themeAttr ∧
    (step (step darkState .themeToggleClick) .themeToggleClick).store
        "veloura-theme" = darkState.store "veloura-theme" := by
  have h := theme_toggle_twice_restores darkState "dark" rfl (Or.inl rfl)
    (by simp [darkState])
  exact ⟨rfl, h.1, h.2⟩

/-- C9: no event of the program ever writes the storage keys
`veloura-cart` or `veloura-wishlist`: after any sequence of events, both
stored values equal their initial values (the only storage write in
`main.js` is `localStorage.setItem("veloura-theme", next)` at line 64). -/
theorem storage_cart_wishlist_frame (st : PageState) (evs : List PageEvent) :
    (evs.foldl step st).store "veloura-cart" = st.store "veloura-cart" ∧
    (evs.foldl step st).store "veloura-wishlist" = st.store "veloura-wishlist" := by
  induction evs generalizing st with
  | nil => exact ⟨rfl, rfl⟩
  | cons ev evs ih =>
    have h := ih (step st ev)
    rw [List.foldl_cons]
    refine ⟨h.1.trans ?_, h.2.trans ?_⟩ <;>
      cases ev <;> simp [step, setItem]

/-- `3 * 24 * 60 * 60 * 1000` ms, the countdown window (main.js:149,154). -/
def threeDaysMs : Int := 3 * 24 * 60 * 60 * 1000

/-- `pad` (main.js:31): `String(value).padStart(2, "0")`. -/
def pad (v : Int) : String :=
  let s := toString v
  if s.length < 2 then "0" ++ s else s

/-- Result of one countdown tick: the (possibly re-based) target and the
four displayed components. -/
structure TickOutput where
  target : Int
  days : Int
  hours : Int
  minutes : Int
  seconds : Int
  deriving Repr

/-- `tick` (main.js:151-165) at instant `now` (ms): if the remaining time
`target - now` is `≤ 0` the target is re-based to `now + 3 days`; then the
remaining time against the (new) target is split into days, hours, minutes
and seconds by floored division, exactly as the `Math.floor` expressions
compute for a non-negative remainder.  The single-threaded callback runs at
one instant, so the three `Date` reads share `now`. -/
def tick (target now : Int) : TickOutput :=
  let target1 := if target - now ≤ 0 then now + threeDaysMs else target
  let remaining := target1 - now
  { target := target1
    days := remaining / (1000 * 60 * 60 * 24)
    hours := (remaining / (1000 * 60 * 60)) % 24
    minutes := (remaining / (1000 * 60)) % 60
    seconds := (remaining / 1000) % 60 }

/-- The four zero-padded strings written to `#days`, `#hours`, `#minutes`,
`#seconds` (main.js:161-164). -/
def tickDisplay (target now : Int) : String × String × String × String :=
  let o := tick target now
  (pad o.days, pad o.hours, pad o.minutes, pad o.seconds)

/-- C3: for every tick, no displayed component is negative; whenever the
remaining time at the start of the tick is `≤ 0` the tick re-bases the
target to exactly `now + 3` days before formatting; and immediately after
every tick the target lies strictly in the future. -/
theorem tick_nonneg_rebases_future (target now : Int) :
    0 ≤ (tick target now).days ∧ 0 ≤ (tick target now).hours ∧
    0 ≤ (tick target now).minutes ∧ 0 ≤ (tick target now).seconds ∧
    (target - now ≤ 0 → (tick target now).target = now + threeDaysMs) ∧
    now < (tick target now).target := by
  have hpos : (0 : Int) < (tick target now).target - now := by
    unfold tick threeDaysMs
    split <;> dsimp only <;> omega
  have hrem : 0 ≤ (tick target now).target - now := le_of_lt hpos
  refine ⟨?_, ?_, ?_, ?_, ?_, by omega⟩
  · exact Int.ediv_nonneg hrem (by norm_num)
  · exact Int.emod_nonneg _ (by norm_num)
  · exact Int.emod_nonneg _ (by norm_num)
  · exact Int.emod_nonneg _ (by norm_num)
  · intro h
    unfold tick
    simp [h]

/-- C3 witness: a tick whose remaining time is already negative re-bases to
a full `3 d 0 h 0 m 0 s` window strictly in the future. -/
theorem tick_nonneg_rebases_future_witness :
    0 ≤ (tick 0 500).days ∧ 0 ≤ (tick 0 500).hours ∧
    0 ≤ (tick 0 500).minutes ∧ 0 ≤ (tick 0 500).seconds ∧
    ((0 : Int) - 500 ≤ 0 → (tick 0 500).target = 500 + threeDaysMs) ∧
    (500 : Int) < (tick 0 500).target :=
  tick_nonneg_rebases_future 0 500

/-- `goToSlide` (main.js:196-199):
`state.testimonialIndex = (index + slides.length) % slides.length`, with
JavaScript's remainder operator, whose result takes the dividend's sign
(`Int.tmod`). -/
def goToSlide (slideCount index : Int) : Int :=
  Int.tmod (index + slideCount) slideCount

/-- C4 counterexample: on a 3-slide track, `goToSlide (-4)` sets the index
to `-1`, not to the wrap `(-4) mod 3 = 2`, and the index leaves
`[0, slideCount)`. -/
theorem goToSlide_counterexample :
    goToSlide 3 (-4) = -1 ∧ (-4 : Int) % 3 = 2 ∧ ¬ (0 : Int) ≤ goToSlide 3 (-4) := by
  refine ⟨by decide, by decide, by decide⟩

/-- C4 amended: for every argument `k ≥ -slideCount` (which covers every
call site: dot indices in `[0, n)`, `index - 1` and `index + 1` from an
index in `[0, n)`), `goToSlide k` equals the wrap of `k` modulo the slide
count and lies in `[0, slideCount)`; in particular `goToSlide (-1) = 2` and
`goToSlide 3 = 0` on a 3-slide track.  For `k < -slideCount` the result is
negative instead. -/
theorem goToSlide_wraps (n k : Int) (hn : 0 < n) (hk : -n ≤ k) :
    goToSlide n k = k % n ∧ 0 ≤ goToSlide n k ∧ goToSlide n k < n := by
  have h0 : 0 ≤ k + n := by omega
  have ht : Int.tmod (k + n) n = (k + n) % n :=
    Int.tmod_eq_emod h0 (le_of_lt hn)
  have he : (k + n) % n = k % n := by
    have := Int.add_mul_emod_self_left k n 1
    simp only [mul_one] at this
    exact this
  refine ⟨by rw [goToSlide, ht, he], ?_, ?_⟩
  · rw [goToSlide, ht]
    exact Int.emod_nonneg _ (by omega)
  · rw [goToSlide, ht]
    exact Int.emod_lt_of_pos _ hn

/-- C4 witness: `goToSlide (-1)` on a 3-slide track wraps to the last
index, `2`. -/
theorem goToSlide_wraps_witness :
    (0 : Int) < 3 ∧ -(3 : Int) ≤ -1 ∧
      (goToSlide 3 (-1) = (-1) % 3 ∧ 0 ≤ goToSlide 3 (-1) ∧ goToSlide 3 (-1) < 3) :=
  ⟨by decide, by decide, goToSlide_wraps 3 (-1) (by decide) (by decide)⟩

/-- The operations that change the testimonial index (main.js:185,
201-208): a dot click jumps to that dot's slide, prev/next step by one, and
the autoplay timer fires `next`, i.e. `goToSlide(state.testimonialIndex + 1)`. -/
inductive CarouselOp where
  | dotClickAt (k : Nat)
  | prevClickStep
  | nextClickStep
  | autoplayFire
  deriving Repr

/-- Effect of one carousel operation on the index. -/
def carouselStep (n idx : Int) : CarouselOp → Int
  | .dotClickAt k => goToSlide n k
  | .prevClickStep => goToSlide n (idx - 1)
  | .nextClickStep => goToSlide n (idx + 1)
  | .autoplayFire => goToSlide n (idx + 1)

/-- A dot click always carries the index of an existing dot, one per slide
(main.js:181-187). -/
def carouselOpValid (n : Int) : CarouselOp → Prop
  | .dotClickAt k => (k : Int) < n
  | _ => True

/-- C7: from every index in `[0, slideCount)` — and every operation,
manual or automatic, keeps the index there, so manual navigation between
firings cannot break the hypothesis — an autoplay firing advances the
index by exactly 1 modulo the slide count. -/
theorem autoplay_advances_one (n idx : Int) (op : CarouselOp) (hn : 0 < n)
    (h0 : 0 ≤ idx) (h1 : idx < n) (hop : carouselOpValid n op) :
    carouselStep n idx .autoplayFire = (idx + 1) % n ∧
    0 ≤ carouselStep n idx op ∧ carouselStep n idx op < n := by
  have hauto := goToSlide_wraps n (idx + 1) hn (by omega)
  refine ⟨hauto.1, ?_⟩
  cases op with
  | dotClickAt k =>
    have hk0 : (0 : Int) ≤ (k : Int) := Int.ofNat_nonneg k
    have := goToSlide_wraps n (k : Int) hn (by omega)
    exact ⟨this.2.1, this.2.2⟩
  | prevClickStep =>
    have := goToSlide_wraps n (idx - 1) hn (by omega)
    exact ⟨this.2.1, this.2.2⟩
  | nextClickStep =>
    have := goToSlide_wraps n (idx + 1) hn (by omega)
    exact ⟨this.2.1, this.2.2⟩
  | autoplayFire =>
    exact ⟨hauto.2.1, hauto.2.2⟩

/-- C7 witness: on a 3-slide track at index 2, with a dot click for slide 0
interleaved, the autoplay firing advances to `(2 + 1) % 3 = 0`. -/
theorem autoplay_advances_one_witness :
    carouselStep 3 2 .autoplayFire = (2 + 1) % 3 ∧
    0 ≤ carouselStep 3 2 (.dotClickAt 0) ∧ carouselStep 3 2 (.dotClickAt 0) < 3 :=
  autoplay_advances_one 3 2 (.dotClickAt 0) (by decide) (by decide) (by decide)
    (by norm_num [carouselOpValid])

/-- A `.tab` button: its `data-tab` value (`none` when the attribute is
absent, i.e. `dataset.tab === undefined`) and whether it carries the
`is-active` class. -/
structure TabElem where
  key : Option String
  active : Bool
  deriving Repr, DecidableEq

/-- A `.tab-panel`: its `data-panel` value and its `is-active` class. -/
structure PanelElem where
  key : Option String
  active : Bool
  deriving Repr, DecidableEq

/-- The clicked tab's `dataset.tab` (main.js:133); the handler only exists
on tabs present in the list. -/
def clickedKey (tabs : List TabElem) (i : Nat) : Option String :=
  match tabs.get? i with
  | some t => t.key
  | none => none

/-- `tabs.forEach(btn => btn.classList.toggle("is-active", btn === tab))`
(main.js:134): position `j` in the NodeList is the identity of the element,
so the condition is `j == i`. -/
def markTabsFrom (i : Nat) : Nat → List TabElem → List TabElem
  | _, [] => []
  | j, t :: ts => { key := t.key, active := j == i } :: markTabsFrom i (j + 1) ts

/-- The click handler of `initTabs` (main.js:132-138) for the `i`-th tab:
every tab's `is-active` is forced to `btn === tab`, every panel's to
`panel.dataset.panel === target` (strict equality on string-or-undefined,
i.e. on `Option String`). -/
def clickTab (tabs : List TabElem) (panels : List PanelElem) (i : Nat) :
    List TabElem × List PanelElem :=
  let target := clickedKey tabs i
  (markTabsFrom i 0 tabs,
   panels.map fun p => { key := p.key, active := p.key == target })

theorem markTabsFrom_map_key (i : Nat) :
    ∀ (ts : List TabElem) (j : Nat),
      (markTabsFrom i j ts).map (·.key) = ts.map (·.key) := by
  intro ts
  induction ts with
  | nil => intro j; rfl
  | cons t ts ih =>
    intro j
    simp [markTabsFrom, ih]

theorem markTabsFrom_map_active (i : Nat) :
    ∀ (ts : List TabElem) (j : Nat),
      (markTabsFrom i j ts).map (·.active)
        = (List.range' j ts.length).map (fun j => j == i) := by
  intro ts
  induction ts with
  | nil => intro j; rfl
  | cons t ts ih =>
    intro j
    simp [markTabsFrom, List.range', ih]

theorem markTabsFrom_countP (i : Nat) :
    ∀ (ts : List TabElem) (j : Nat),
      (markTabsFrom i j ts).countP (·.active)
        = if j ≤ i ∧ i < j + ts.length then 1 else 0 := by
  intro ts
  induction ts with
  | nil =>
    intro j
    rw [markTabsFrom, if_neg (by simp)]
    rfl
  | cons t ts ih =>
    intro j
    rw [markTabsFrom, List.countP_cons, ih (j + 1)]
    show (if j + 1 ≤ i ∧ i < j + 1 + ts.length then 1 else 0)
        + (if (j == i) = true then 1 else 0)
      = if j ≤ i ∧ i < j + (t :: ts).length then 1 else 0
    by_cases h : j = i
    · subst h
      rw [if_neg (by omega : ¬ (j + 1 ≤ j ∧ j < j + 1 + ts.length)),
        if_pos (by simp : (j == j) = true),
        if_pos (by simp : j ≤ j ∧ j < j + (t :: ts).length)]
    · have hb : ¬ ((j == i) = true) := by simpa using h
      rw [if_neg hb]
      have hiff : (j + 1 ≤ i ∧ i < j + 1 + ts.length)
          ↔ (j ≤ i ∧ i < j + (t :: ts).length) := by
        simp only [List.length_cons]
        omega
      rw [if_congr hiff rfl rfl]
      omega

/-- C5: after the click handler for the `i`-th tab runs, the tab keys are
unchanged, the `i`-th tab and no other carries `is-active` (so exactly one
tab is active), the panel keys are unchanged, a panel is active exactly
when its `data-panel` equals the clicked tab's `data-tab`, and — given the
page's DOM contract that exactly one panel matches that key — exactly one
panel is active. -/
theorem tab_click_exclusive (tabs : List TabElem) (panels : List PanelElem)
    (i : Nat) (hi : i < tabs.length)
    (huniq : panels.countP (fun p => p.key == clickedKey tabs i) = 1) :
    (clickTab tabs panels i).1.map (·.key) = tabs.map (·.key) ∧
    (clickTab tabs panels i).1.map (·.active)
      = (List.range tabs.length).map (fun j => j == i) ∧
    (clickTab tabs panels i).1.countP (·.active) = 1 ∧
    (clickTab tabs panels i).2.map (·.key) = panels.map (·.key) ∧
    (clickTab tabs panels i).2.map (·.active)
      = panels.map (fun p => p.key == clickedKey tabs i) ∧
    (clickTab tabs panels i).2.countP (·.active) = 1 := by
  refine ⟨markTabsFrom_map_key i tabs 0, ?_, ?_, ?_, ?_, ?_⟩
  · rw [List.range_eq_range']
    exact markTabsFrom_map_active i tabs 0
  · rw [show (clickTab tabs panels i).1 = markTabsFrom i 0 tabs from rfl,
      markTabsFrom_countP i tabs 0]
    simp
    omega
  · simp [clickTab]
  · simp [clickTab]
  · rw [show (clickTab tabs panels i).2
        = panels.map (fun p => { key := p.key, active := p.key == clickedKey tabs i })
      from rfl]
    rw [List.countP_map]
    exact huniq

/-- C5 witness: clicking the second of two tabs on a two-panel page with
matching keys activates exactly that tab and exactly the matching panel. -/
theorem tab_click_exclusive_witness :
    (1 : Nat) < ([⟨some "new", true⟩, ⟨some "top", false⟩] : List TabElem).length ∧
    ([⟨some "new", true⟩, ⟨some "top", false⟩] : List PanelElem).countP
      (fun p => p.key == clickedKey [⟨some "new", true⟩, ⟨some "top", false⟩] 1) = 1 ∧
    (clickTab [⟨some "new", true⟩, ⟨some "top", false⟩]
        [⟨some "new", true⟩, ⟨some "top", false⟩] 1).1.countP (·.active) = 1 ∧
    (clickTab [⟨some "new", true⟩, ⟨some "top", false⟩]
        [⟨some "new", true⟩, ⟨some "top", false⟩] 1).2.countP (·.active) = 1 := by
  have h := tab_click_exclusive [⟨some "new", true⟩, ⟨some "top", false⟩]
    [⟨some "new", true⟩, ⟨some "top", false⟩] 1 (by decide) (by decide)
  exact ⟨by decide, by decide, h.2.2.1, h.2.2.2.2.2⟩

instance : DecidableEq (Except String (String × String)) := fun a b =>
  match a, b with
  | .ok x, .ok y =>
    if h : x = y then .isTrue (by rw [h]) else .isFalse (fun hh => h (Except.ok.inj hh))
  | .error x, .error y =>
    if h : x = y then .isTrue (by rw [h]) else .isFalse (fun hh => h (Except.error.inj hh))
  | .ok _, .error _ => .isFalse (fun hh => Except.noConfusion hh)
  | .error _, .ok _ => .isFalse (fun hh => Except.noConfusion hh)

/-- The quantity the spec's words assign to a cart item: its `qty` number
when one is stored, `1` when the field is absent (spec side of the C6
comparison). -/
def specItemQty (fields : List (String × JVal)) : Int :=
  match List.lookup "qty" fields with
  | some (.num q) => q
  | _ => 1

/-- The badge count the spec's words predict: the sum of the items'
quantities. -/
def specCartSum (items : List (List (String × JVal))) : Int :=
  (items.map specItemQty).sum

/-- A cart item whose `qty` fields, when present, are nonzero numbers
(hence truthy). -/
def validQty (fields : List (String × JVal)) : Prop :=
  ∀ v, List.lookup "qty" fields = some v → ∃ q : Int, v = .num q ∧ q ≠ 0

theorem cartStep_eval (s : Int) (fields : List (String × JVal)) :
    cartStep (.num s) (.obj fields)
      = .ok (jsAdd (.num s)
          (if truthy ((List.lookup "qty" fields).getD .undefined)
           then (List.lookup "qty" fields).getD .undefined
           else .num 1)) := rfl

theorem cartStep_valid (s : Int) (fields : List (String × JVal))
    (h : validQty fields) :
    cartStep (.num s) (.obj fields) = .ok (.num (s + specItemQty fields)) := by
  rw [cartStep_eval]
  cases hl : List.lookup "qty" fields with
  | none =>
    have hspec : specItemQty fields = 1 := by simp [specItemQty, hl]
    rw [hspec]
    rfl
  | some v =>
    obtain ⟨q, rfl, hq⟩ := h v hl
    have ht : truthy (.num q) = true := by simp [truthy, hq]
    have hspec : specItemQty fields = q := by simp [specItemQty, hl]
    rw [hspec, Option.getD_some, ht, if_pos rfl]
    rfl

theorem cartReduce_valid (items : List (List (String × JVal)))
    (h : ∀ f ∈ items, validQty f) :
    ∀ s : Int, (items.map JVal.obj).foldlM cartStep (.num s)
      = .ok (.num (s + specCartSum items)) := by
  induction items with
  | nil =>
    intro s
    simp [specCartSum]
    rfl
  | cons f fs ih =>
    intro s
    rw [List.map_cons, List.foldlM_cons, cartStep_valid s f (h f (by simp))]
    show (fs.map JVal.obj).foldlM cartStep (.num (s + specItemQty f)) = _
    rw [ih (fun g hg => h g (by simp [hg])) (s + specItemQty f)]
    have : s + specItemQty f + specCartSum fs = s + specCartSum (f :: fs) := by
      simp [specCartSum]
      ring
    rw [this]

/-- C6 amended: for every stored cart that is an array of objects whose
`qty` fields, when present, are nonzero (truthy) numbers, the cart badge
displays the sum of the quantities where an item missing a quantity
contributes exactly 1, and the wishlist badge displays the length of the
stored wishlist array. -/
theorem syncBadges_valid_cart_sum (items : List (List (String × JVal)))
    (wish : List JVal) (h : ∀ f ∈ items, validQty f) :
    syncBadges (.parsed (.arr (items.map .obj))) (.parsed (.arr wish))
      = .ok (toString (specCartSum items), toString (wish.length : Int)) := by
  have hc : cartReduce (.arr (items.map .obj)) = .ok (.num (specCartSum items)) := by
    show (items.map JVal.obj).foldlM cartStep (.num 0) = _
    rw [cartReduce_valid items h 0]
    norm_num
  have hw : wishlistLength (.arr wish) = .ok (.num (wish.length : Int)) := by
    simp [wishlistLength, getField]
  show (do
    let cartCount ← cartReduce (.arr (items.map .obj))
    let wishlistCount ← wishlistLength (.arr wish)
    Except.ok (jsToString cartCount, jsToString wishlistCount)) = _
  rw [hc, hw]
  rfl

/-- C6 witness: a two-item cart (`qty` 2 and a missing `qty`) together
with a one-element wishlist renders `"3"` and `"1"`. -/
theorem syncBadges_valid_cart_sum_witness :
    (∀ f ∈ ([[("qty", JVal.num 2)], []] : List (List (String × JVal))), validQty f) ∧
    syncBadges (.parsed (.arr ([[("qty", JVal.num 2)], []].map .obj)))
        (.parsed (.arr [.obj []]))
      = .ok (toString (specCartSum [[("qty", JVal.num 2)], []]),
          toString (([JVal.obj []] : List JVal).length : Int)) := by
  have hvalid : ∀ f ∈ ([[("qty", JVal.num 2)], []] : List (List (String × JVal))),
      validQty f := by
    intro f hf v hv
    rcases List.mem_cons.mp hf with h | h2
    · subst h
      exact ⟨2, (Option.some.inj hv).symm, by decide⟩
    · rcases List.mem_cons.mp h2 with h | h
      · subst h
        exact Option.noConfusion hv
      · exact absurd h (List.not_mem_nil f)
  exact ⟨hvalid, syncBadges_valid_cart_sum [[("qty", JVal.num 2)], []] [.obj []] hvalid⟩

/-- A stored cart holding one item whose `qty` is present and `0`. -/
def qtyZeroCart : RawVal := .parsed (.arr [.obj [("qty", .num 0)]])

/-- An empty stored wishlist. -/
def emptyWishlist : RawVal := .parsed (.arr [])

/-- C6 counterexample: for the valid stored cart `[{"qty": 0}]` the badge
renders `"1"`, not the sum of quantities `0` the claim predicts for an item
whose quantity is present. -/
theorem syncBadges_qty_zero_counterexample :
    syncBadges qtyZeroCart emptyWishlist = .ok ("1", "0") ∧
    syncBadges qtyZeroCart emptyWishlist ≠ .ok (toString (0 : Int), "0") := by
  exact ⟨by decide, by decide⟩

/-- C10: a cart item whose `qty` field is present but falsy (`0`, `null`,
`NaN`, `false`, `""`) contributes exactly 1 to the badge sum: the reducer
of `syncBadges` maps a running sum `s` to `s + 1` on such an item. -/
theorem cartStep_falsy_qty_one (s : Int) (fields : List (String × JVal))
    (v : JVal) (hl : List.lookup "qty" fields = some v)
    (hv : truthy v = false) :
    cartStep (.num s) (.obj fields) = .ok (.num (s + 1)) := by
  rw [cartStep_eval, hl, Option.getD_some, hv, if_neg (by decide)]
  rfl

/-- C10 witness: an item with `qty` present and `0` advances the running
sum from `0` to `1`. -/
theorem cartStep_falsy_qty_one_witness :
    List.lookup "qty" [("qty", JVal.num 0)] = some (.num 0) ∧
    truthy (.num 0) = false ∧
    cartStep (.num 0) (.obj [("qty", .num 0)]) = .ok (.num (0 + 1)) :=
  ⟨rfl, rfl, cartStep_falsy_qty_one 0 [("qty", .num 0)] (.num 0) rfl rfl⟩

/-- `classList.add(cls)`: appends the class when absent. -/
def classAdd (cls : String) (cs : List String) : List String :=
  if cls ∈ cs then cs else cs ++ [cls]

/-- `classList.remove(cls)`. -/
def classRemove (cls : String) (cs : List String) : List String :=
  cs.filter (fun c => c ≠ cls)

/-- `classList.toggle(cls, force)`: add when `force`, remove otherwise. -/
def classToggleSet (cls : String) (force : Bool) (cs : List String) : List String :=
  if force then classAdd cls cs else classRemove cls cs

/-- Every class-list mutation `main.js` can apply to an element that is not
the `#back-to-top` button (whose subtree is disjoint from `.reveal` per the
spec's DOM contract): the reveal observer callback, which adds `is-visible`
when the entry intersects and does nothing otherwise (main.js:111-117); the
`is-active` toggles on tabs, panels and carousel dots (main.js:134-136,
192); and the arrival skeleton's `is-loading` removal (main.js:233). -/
inductive RevealElemOp where
  | observerEntry (isIntersecting : Bool)
  | toggleIsActive (cond : Bool)
  | arrivalLoadedRemove
  deriving Repr, DecidableEq

/-- Effect of one operation on an element's class list. -/
def applyClassOp (cs : List String) : RevealElemOp → List String
  | .observerEntry b => if b then classAdd "is-visible" cs else cs
  | .toggleIsActive cond => classToggleSet "is-active" cond cs
  | .arrivalLoadedRemove => classRemove "is-loading" cs

theorem mem_classAdd (a cls : String) (cs : List String) (h : a ∈ cs) :
    a ∈ classAdd cls cs := by
  by_cases hc : cls ∈ cs <;> simp [classAdd, hc, h]

theorem mem_classRemove (a cls : String) (cs : List String) (h : a ∈ cs)
    (hne : a ≠ cls) : a ∈ classRemove cls cs := by
  simp only [classRemove, List.mem_filter]
  exact ⟨h, by simpa using hne⟩

/-- C8: once a reveal element's class list contains `is-visible`, no
sequence of program operations ever removes it — the revealed state is a
one-way transition. -/
theorem reveal_class_persistent (cs : List String) (ops : List RevealElemOp)
    (h : "is-visible" ∈ cs) :
    "is-visible" ∈ ops.foldl applyClassOp cs := by
  induction ops generalizing cs with
  | nil => exact h
  | cons op ops ih =>
    rw [List.foldl_cons]
    apply ih
    cases op with
    | observerEntry b =>
      cases b
      · exact h
      · exact mem_classAdd _ _ cs h
    | toggleIsActive cond =>
      cases cond
      · exact mem_classRemove _ _ cs h (by decide)
      · exact mem_classAdd _ _ cs h
    | arrivalLoadedRemove =>
      exact mem_classRemove _ _ cs h (by decide)

/-- C8 witness: a revealed element keeps `is-visible` through an arrival
removal, an `is-active` toggle off, a non-intersecting observer entry and
an `is-active` toggle on. -/
theorem reveal_class_persistent_witness :
    "is-visible" ∈ (["reveal", "is-visible"] : List String) ∧
    "is-visible" ∈ ([.arrivalLoadedRemove, .toggleIsActive false,
        .observerEntry false, .toggleIsActive true] : List RevealElemOp).foldl
          applyClassOp ["reveal", "is-visible"] :=
  ⟨by decide, reveal_class_persistent ["reveal", "is-visible"] _ (by decide)⟩

end Veloura
